import Mathlib

/-!
Shallow embedding of the Document-validator repository
(src/models.py, src/validation.py, src/ai_extractor.py, src/main.py).

Python strings are modelled as Lean `String` (ASCII-faithful), Python
`float` values as `Rat` (the only operation the code performs on them is
comparison with 0), Python `None`-able fields as `Option`, and functions
that raise `ValueError` as `Except String`.
-/

namespace DocValidator

/-- One digit of an ASCII decimal string, as in Python's `\d` match groups. -/
def digitVal (c : Char) : Option Nat :=
  if c.isDigit then some (c.toNat - 48) else none

/-- Split a character list on the separator character, as the anchored
regex built by CPython `_strptime` for the format `%Y-%m-%d` does:
digits and the separator never overlap, so matching the full string
against `\d\d\d\d-%m-%d` is splitting on the dashes. -/
def splitDash : List Char → List (List Char)
  | [] => [[]]
  | c :: rest =>
    if c = '-' then [] :: splitDash rest
    else
      match splitDash rest with
      | [] => [[c]]
      | seg :: segs => (c :: seg) :: segs

/-- The `%Y` directive of CPython `_strptime`: exactly four ASCII digits. -/
def parseYear4 (l : List Char) : Option Nat :=
  match l with
  | [a, b, c, d] =>
    match digitVal a, digitVal b, digitVal c, digitVal d with
    | some va, some vb, some vc, some vd => some (1000 * va + 100 * vb + 10 * vc + vd)
    | _, _, _, _ => none
  | _ => none

/-- The `%m`/`%d` directives: one digit `1..9`, or two digits whose value
lies in `1..hi` (`hi = 12` for months, `31` for days), never `00`. -/
def parseSeg (l : List Char) (hi : Nat) : Option Nat :=
  match l with
  | [a] =>
    match digitVal a with
    | some v => if 1 ≤ v then some v else none
    | none => none
  | [a, b] =>
    match digitVal a, digitVal b with
    | some va, some vb =>
      let v := 10 * va + vb
      if 1 ≤ v ∧ v ≤ hi then some v else none
    | _, _ => none
  | _ => none

/-- Proleptic-Gregorian leap years, as `datetime` uses. -/
def isLeap (y : Nat) : Bool := y % 4 = 0 && (y % 100 ≠ 0 || y % 400 = 0)

def daysInMonth (y m : Nat) : Nat :=
  if m = 2 then (if isLeap y then 29 else 28)
  else if m = 4 ∨ m = 6 ∨ m = 9 ∨ m = 11 then 30
  else 31

structure Date where
  year : Nat
  month : Nat
  day : Nat
deriving DecidableEq, Repr

/-- `datetime.strptime(s, "%Y-%m-%d")`: the anchored full-match of the
format regex (four-digit year, month `1..12`, day `1..31`, the whole
string consumed) followed by the `datetime` constructor checks
(`MINYEAR = 1`, day within the month). Returns `none` where Python
raises `ValueError`. -/
def parseDate (s : String) : Option Date :=
  match splitDash s.toList with
  | [ys, ms, ds] =>
    match parseYear4 ys, parseSeg ms 12, parseSeg ds 31 with
    | some y, some m, some d =>
      if 1 ≤ y ∧ d ≤ daysInMonth y m then some ⟨y, m, d⟩ else none
    | _, _, _ => none
  | _ => none

/-- `datetime` comparison restricted to dates: lexicographic on
(year, month, day). -/
def dateLt (a b : Date) : Bool :=
  a.year < b.year ∨
    (a.year = b.year ∧ (a.month < b.month ∨ (a.month = b.month ∧ a.day < b.day)))

/-- Python `str.strip()`: drop leading and trailing whitespace
(executable down to the kernel, unlike `String.trim`). -/
def pyStrip (s : String) : String :=
  ((s.toList.dropWhile Char.isWhitespace).reverse.dropWhile Char.isWhitespace).reverse.asString

/-- Python `str.lower()` (ASCII-faithful). -/
def pyLower (s : String) : String :=
  (s.toList.map Char.toLower).asString

/-- models.py `ExtractedData`: five optional extracted fields. -/
structure ExtractedData where
  policy_number : Option String
  vessel_name : Option String
  policy_start_date : Option String
  policy_end_date : Option String
  insured_value : Option Rat
deriving DecidableEq, Repr

/-- Python truthiness of an optional string: `None` and `""` are falsy. -/
def optStrTruthy : Option String → Bool
  | none => false
  | some s => !(s == "")

/-- The model invariant enforced by the `field_validator`s in models.py:
a present date field parses with `strptime(v, "%Y-%m-%d")`. -/
def wfDateField : Option String → Bool
  | none => true
  | some s => (parseDate s).isSome

def wf (d : ExtractedData) : Bool :=
  wfDateField d.policy_start_date && wfDateField d.policy_end_date

/-- models.py `ValidationResult`. The pydantic pattern `^(PASS|FAIL)$`
on `status` is proved, not assumed. -/
structure ValidationResult where
  rule : String
  status : String
  message : String
deriving DecidableEq, Repr

/-- validation.py `_validate_date_consistency`. The `except ValueError`
branch (strptime failure) yields the defensive "Invalid date format"
FAIL; the start date is parsed first, so its failure wins. -/
def validateDateConsistency (data : ExtractedData) : ValidationResult :=
  if !optStrTruthy data.policy_start_date || !optStrTruthy data.policy_end_date then
    ⟨"Date Consistency", "FAIL", "Missing start or end date."⟩
  else
    match parseDate (data.policy_start_date.getD ""), parseDate (data.policy_end_date.getD "") with
    | none, _ =>
      ⟨"Date Consistency", "FAIL",
        "Invalid date format: time data " ++ data.policy_start_date.getD ""
          ++ " does not match format"⟩
    | some _, none =>
      ⟨"Date Consistency", "FAIL",
        "Invalid date format: time data " ++ data.policy_end_date.getD ""
          ++ " does not match format"⟩
    | some sd, some ed =>
      if dateLt sd ed then
        ⟨"Date Consistency", "PASS", "Policy end date is after start date."⟩
      else
        ⟨"Date Consistency", "FAIL",
          "Policy end date (" ++ data.policy_end_date.getD ""
            ++ ") must be after start date (" ++ data.policy_start_date.getD "" ++ ")."⟩

/-- validation.py `_validate_insured_value`. -/
def validateInsuredValue (data : ExtractedData) : ValidationResult :=
  match data.insured_value with
  | none => ⟨"Value Check", "FAIL", "Insured value is missing."⟩
  | some v =>
    if 0 < v then
      ⟨"Value Check", "PASS", "Insured value is valid."⟩
    else
      ⟨"Value Check", "FAIL",
        "Insured value (" ++ toString v ++ ") must be greater than 0."⟩

/-- validation.py `_validate_vessel_name`. The approved set is modelled
as a list of strings; `.lower()` on both sides is `pyLower`. -/
def validateVesselName (vessels : List String) (data : ExtractedData) : ValidationResult :=
  if !optStrTruthy data.vessel_name then
    ⟨"Vessel Name Match", "FAIL", "Vessel name is missing."⟩
  else
    if pyLower (data.vessel_name.getD "") ∈ vessels.map pyLower then
      ⟨"Vessel Name Match", "PASS",
        "Vessel '" ++ data.vessel_name.getD "" ++ "' is on the approved list."⟩
    else
      ⟨"Vessel Name Match", "FAIL",
        "Vessel '" ++ data.vessel_name.getD "" ++ "' is not on the approved list."⟩

/-- validation.py `_validate_completeness`:
`if data.policy_number and data.policy_number.strip()`. -/
def validateCompleteness (data : ExtractedData) : ValidationResult :=
  match data.policy_number with
  | none => ⟨"Completeness Check", "FAIL", "Policy number is missing or empty."⟩
  | some p =>
    if !(p == "") && !(pyStrip p == "") then
      ⟨"Completeness Check", "PASS", "Policy number is present."⟩
    else
      ⟨"Completeness Check", "FAIL", "Policy number is missing or empty."⟩

/-- validation.py `DocumentValidator.validate`: the four rules in fixed
order. -/
def validate (vessels : List String) (data : ExtractedData) : List ValidationResult :=
  [validateDateConsistency data,
   validateInsuredValue data,
   validateVesselName vessels data,
   validateCompleteness data]

/-- A JSON value at one of the five expected keys, as `json.loads`
delivers it to pydantic: `null` (or an absent key — pydantic treats
both as the `None` default), a string, or a number. Other JSON shapes
(arrays, objects, booleans) are outside the modelled scope: the prompt
contract requests null/string/number and no claim quantifies over
them. -/
inductive JsonVal where
  | jnull : JsonVal
  | jstr : String → JsonVal
  | jnum : Rat → JsonVal
deriving DecidableEq, Repr

/-- The JSON object the AI response parses to, with the five expected
keys at their raw JSON-level values. Constructing `ExtractedData` from
it runs pydantic's per-field type validation plus the custom field
validators of models.py. -/
structure RawObj where
  policy_number : JsonVal
  vessel_name : JsonVal
  policy_start_date : JsonVal
  policy_end_date : JsonVal
  insured_value : JsonVal
deriving DecidableEq, Repr

/-- Value of an ASCII digit run read left to right. -/
def digitsToNat (l : List Char) : Nat :=
  l.foldl (fun a c => 10 * a + (c.toNat - 48)) 0

/-- Python's numeric-literal underscore rule: a single `_` standing
between two digits is a grouping character and is dropped; any other
underscore stays and makes the literal invalid downstream. -/
def stripUnderscores : List Char → List Char
  | a :: '_' :: b :: rest =>
    if a.isDigit && b.isDigit then a :: stripUnderscores (b :: rest)
    else a :: stripUnderscores ('_' :: b :: rest)
  | a :: rest => a :: stripUnderscores rest
  | [] => []

/-- Scale a parsed mantissa by the signed decimal exponent. -/
def applyExp (base : Rat) (neg : Bool) (e : Nat) : Rat :=
  if neg then base / (10 : Rat) ^ e else base * (10 : Rat) ^ e

/-- The exponent suffix of a float literal: optional sign then a
non-empty digit run consuming the rest of the input. -/
def parseExpSuffix (base : Rat) (l : List Char) : Option Rat :=
  match l with
  | '+' :: r =>
    if !r.isEmpty && (r.dropWhile Char.isDigit).isEmpty then
      some (applyExp base false (digitsToNat (r.takeWhile Char.isDigit)))
    else none
  | '-' :: r =>
    if !r.isEmpty && (r.dropWhile Char.isDigit).isEmpty then
      some (applyExp base true (digitsToNat (r.takeWhile Char.isDigit)))
    else none
  | r =>
    if !r.isEmpty && (r.dropWhile Char.isDigit).isEmpty then
      some (applyExp base false (digitsToNat (r.takeWhile Char.isDigit)))
    else none

/-- The tail of a float literal after the integer digits: an optional
`.fraction` and an optional `e`/`E` exponent, consuming the rest. -/
def parseFracExp (sign : Rat) (ip : List Char) (l : List Char) : Option Rat :=
  match l with
  | '.' :: r =>
    let fp := r.takeWhile Char.isDigit
    let l2 := r.dropWhile Char.isDigit
    if ip.isEmpty && fp.isEmpty then none
    else
      let base := sign * ((digitsToNat ip : Rat)
        + (digitsToNat fp : Rat) / (10 : Rat) ^ fp.length)
      match l2 with
      | [] => some base
      | 'e' :: r2 => parseExpSuffix base r2
      | 'E' :: r2 => parseExpSuffix base r2
      | _ => none
  | [] => if ip.isEmpty then none else some (sign * (digitsToNat ip : Rat))
  | 'e' :: r2 =>
    if ip.isEmpty then none else parseExpSuffix (sign * (digitsToNat ip : Rat)) r2
  | 'E' :: r2 =>
    if ip.isEmpty then none else parseExpSuffix (sign * (digitsToNat ip : Rat)) r2
  | _ => none

/-- pydantic's lax string-to-float coercion (Python float-literal
syntax) restricted to finite decimals: surrounding whitespace stripped,
optional sign, digits with grouping underscores, optional fraction,
optional exponent. IEEE special spellings (`nan`, `inf`, `infinity`)
denote non-finite floats that `Rat` cannot carry; they are outside the
modelled scope (see `isFloatSpecial`) and map to `none` here. -/
def pyFloat (s : String) : Option Rat :=
  match stripUnderscores (pyStrip s).toList with
  | '+' :: r => parseFracExp 1 (r.takeWhile Char.isDigit) (r.dropWhile Char.isDigit)
  | '-' :: r => parseFracExp (-1) (r.takeWhile Char.isDigit) (r.dropWhile Char.isDigit)
  | r => parseFracExp 1 (r.takeWhile Char.isDigit) (r.dropWhile Char.isDigit)

/-- Spellings of IEEE non-finite floats accepted by Python's `float()`:
the embedding draws no conclusion about these inputs (a `Rat` cannot
hold the resulting value). -/
def isFloatSpecial (s : String) : Bool :=
  pyLower (pyStrip s) ∈
    ["nan", "inf", "infinity", "+nan", "+inf", "+infinity",
     "-nan", "-inf", "-infinity"]

/-- pydantic v2 validation of `Optional[str]` (policy_number,
vessel_name): `null` becomes `None`, a string passes through, and a
number is a type error (v2 does not coerce numbers to strings). -/
def checkStrField (v : JsonVal) : Except String (Option String) :=
  match v with
  | JsonVal.jnull => Except.ok none
  | JsonVal.jstr s => Except.ok (some s)
  | JsonVal.jnum _ => Except.error "Input should be a valid string"

/-- pydantic validation of the date fields: the `Optional[str]` type
check (numbers rejected) followed by models.py
`ExtractedData.validate_date_format`, which `strptime`s a present
string or raises `ValueError` for the whole construction. -/
def checkDateField (v : JsonVal) : Except String (Option String) :=
  match v with
  | JsonVal.jnull => Except.ok none
  | JsonVal.jstr s =>
    if (parseDate s).isSome then Except.ok (some s)
    else Except.error ("Date must be in YYYY-MM-DD format, got: " ++ s)
  | JsonVal.jnum _ => Except.error "Input should be a valid string"

/-- pydantic v2 validation of `Optional[float]` (insured_value):
`null` becomes `None`, a JSON number passes, and a string is lax-coerced
when it is a float literal and is otherwise a hard type error; the
after-mode validator models.py `validate_insured_value` then sees an
already-numeric value and returns it as a float unchanged. -/
def checkFloatField (v : JsonVal) : Except String (Option Rat) :=
  match v with
  | JsonVal.jnull => Except.ok none
  | JsonVal.jnum q => Except.ok (some q)
  | JsonVal.jstr s =>
    match pyFloat s with
    | some q => Except.ok (some q)
    | none => Except.error "Input should be a valid number, unable to parse string as a number"

/-- `ExtractedData(**extracted_dict)`: pydantic construction running
per-field validation in declaration order; any field failure rejects
the whole object (pydantic aggregates all field errors into one
`ValidationError`; the embedding returns the first, which is the same
single hard error at the call site). -/
def mkExtractedData (raw : RawObj) : Except String ExtractedData :=
  match checkStrField raw.policy_number with
  | Except.error e => Except.error e
  | Except.ok pn =>
    match checkStrField raw.vessel_name with
    | Except.error e => Except.error e
    | Except.ok vn =>
      match checkDateField raw.policy_start_date with
      | Except.error e => Except.error e
      | Except.ok sd =>
        match checkDateField raw.policy_end_date with
        | Except.error e => Except.error e
        | Except.ok ed =>
          match checkFloatField raw.insured_value with
          | Except.error e => Except.error e
          | Except.ok iv => Except.ok ⟨pn, vn, sd, ed, iv⟩

/-- pydantic JSON serialization of one optional string field:
`None` as `null`, a string as itself. -/
def jsonOfOptStr : Option String → JsonVal
  | none => JsonVal.jnull
  | some s => JsonVal.jstr s

/-- pydantic JSON serialization of the optional numeric field. -/
def jsonOfOptRat : Option Rat → JsonVal
  | none => JsonVal.jnull
  | some q => JsonVal.jnum q

/-- pydantic serialization of an `ExtractedData` back to its JSON
object: each validated field is emitted as-is. -/
def toRawObj (d : ExtractedData) : RawObj :=
  ⟨jsonOfOptStr d.policy_number, jsonOfOptStr d.vessel_name,
   jsonOfOptStr d.policy_start_date, jsonOfOptStr d.policy_end_date,
   jsonOfOptRat d.insured_value⟩

/-- Abstraction of the Gemini call in ai_extractor.py: the response is
either absent/empty text, text that `json.loads` rejects, or text that
parses to a JSON object with the expected keys. -/
inductive AIResult where
  | empty : AIResult
  | invalidJson : String → AIResult
  | parsed : RawObj → AIResult
deriving Repr

/-- ai_extractor.py `AIExtractor.extract_fields`: each failure mode
raises `ValueError` with the corresponding message (the dynamic
`str(e)` suffixes are abstracted to the literal message prefixes). -/
def extractFields (resp : AIResult) : Except String ExtractedData :=
  match resp with
  | AIResult.empty => Except.error "Empty response received from Gemini AI"
  | AIResult.invalidJson _ => Except.error "Invalid JSON response from AI"
  | AIResult.parsed obj =>
    match mkExtractedData obj with
    | Except.ok d => Except.ok d
    | Except.error e => Except.error ("Extracted data validation failed: " ++ e)

/-- models.py `ValidationResponse`. -/
structure ValidationResponse where
  extracted_data : ExtractedData
  validation_results : List ValidationResult
deriving DecidableEq, Repr

/-- main.py `validate_document`: the empty-input guard
(`not request.text or not request.text.strip()`), then extraction (the
AI response is an explicit input since the network call is external),
then the rule validator; any `ValueError` from extraction becomes the
caller-facing error. -/
def validateDocument (text : String) (resp : AIResult) (vessels : List String) :
    Except String ValidationResponse :=
  if text == "" || pyStrip text == "" then
    Except.error "Document text cannot be empty"
  else
    match extractFields resp with
    | Except.error e => Except.error e
    | Except.ok d => Except.ok ⟨d, validate vessels d⟩

lemma append_ne_empty_left (a b : String) (h : a.length ≠ 0) : a ++ b ≠ "" := by
  intro hc
  have h2 : (a ++ b).length = 0 := by rw [hc]; rfl
  rw [String.length_append] at h2
  exact h (Nat.eq_zero_of_add_eq_zero_right h2)

/-- C7: the Value Check rule passes exactly when `insured_value` is
present and strictly positive; an absent value fails with the fixed
missing-value message, and a non-positive value fails citing the
value. -/
theorem C7_value_check (d : ExtractedData) :
    (((validateInsuredValue d).status = "PASS") ↔ ∃ v, d.insured_value = some v ∧ 0 < v)
    ∧ (d.insured_value = none →
        validateInsuredValue d = ⟨"Value Check", "FAIL", "Insured value is missing."⟩)
    ∧ (∀ v, d.insured_value = some v → v ≤ 0 →
        validateInsuredValue d = ⟨"Value Check", "FAIL",
          "Insured value (" ++ toString v ++ ") must be greater than 0."⟩) := by
  refine ⟨?_, ?_, ?_⟩
  · unfold validateInsuredValue
    cases h : d.insured_value with
    | none => simp
    | some v =>
      by_cases hv : 0 < v
      · simp [hv]
      · simp [hv]
  · intro h
    unfold validateInsuredValue
    rw [h]
  · intro v hv hle
    unfold validateInsuredValue
    rw [hv]
    simp [not_lt.mpr hle]

/-- Witness for C7 at a concrete positive insured value. -/
theorem C7_witness :
    ((5 : Rat) > 0) ∧ (validateInsuredValue ⟨none, none, none, none, some 5⟩).status = "PASS" :=
  ⟨by norm_num,
   (C7_value_check ⟨none, none, none, none, some 5⟩).1.mpr ⟨5, rfl, by norm_num⟩⟩

/-- C8: the Completeness Check passes exactly when `policy_number` is
present and non-empty after stripping whitespace; otherwise it fails
with the fixed message. -/
theorem C8_completeness_check (d : ExtractedData) :
    (((validateCompleteness d).status = "PASS") ↔
      ∃ p, d.policy_number = some p ∧ pyStrip p ≠ "")
    ∧ ((¬ ∃ p, d.policy_number = some p ∧ pyStrip p ≠ "") →
        validateCompleteness d =
          ⟨"Completeness Check", "FAIL", "Policy number is missing or empty."⟩) := by
  constructor
  · unfold validateCompleteness
    cases h : d.policy_number with
    | none => simp
    | some p =>
      by_cases hp : p = ""
      · subst hp
        simp [show pyStrip "" = "" from rfl]
      · by_cases hs : pyStrip p = ""
        · simp [hp, hs]
        · simp [hp, hs]
  · intro hne
    unfold validateCompleteness
    cases h : d.policy_number with
    | none => rfl
    | some p =>
      have hs : pyStrip p = "" := by
        by_contra hc
        exact hne ⟨p, h, hc⟩
      simp [hs]

/-- Witness for C8 at a concrete policy number. -/
theorem C8_witness :
    pyStrip "HM-2025-10-A4B" ≠ "" ∧
    (validateCompleteness ⟨some "HM-2025-10-A4B", none, none, none, none⟩).status = "PASS" :=
  ⟨by decide,
   (C8_completeness_check ⟨some "HM-2025-10-A4B", none, none, none, none⟩).1.mpr
     ⟨"HM-2025-10-A4B", rfl, by decide⟩⟩

/-- C6 counterexample: the claim as stated is false. With
`vessel_name = some ""` (present, not absent — pydantic accepts the
empty string, it has no validator) and approved set `{""}` the
lower-cased name equals the lower-casing of a member, so the claim
demands PASS; the code's truthiness test `if not data.vessel_name`
treats `""` as missing and returns FAIL. -/
theorem C6_counterexample :
    (⟨none, some "", none, none, none⟩ : ExtractedData).vessel_name = some "" ∧
    ¬ ((((validateVesselName [""] ⟨none, some "", none, none, none⟩).status = "PASS")) ↔
        pyLower "" ∈ ([""].map pyLower)) := by
  constructor
  · rfl
  · decide

/-- C6 amended: FAIL with the fixed missing-name message if
`vessel_name` is absent **or empty**; for a present non-empty name,
PASS exactly when the lower-cased name equals the lower-casing of some
member of the approved set, and the message cites the name in both
outcomes. -/
theorem C6_vessel_name_match (vessels : List String) (d : ExtractedData) :
    ((d.vessel_name = none ∨ d.vessel_name = some "") →
      validateVesselName vessels d =
        ⟨"Vessel Name Match", "FAIL", "Vessel name is missing."⟩)
    ∧ (∀ name, d.vessel_name = some name → name ≠ "" →
        ((((validateVesselName vessels d).status = "PASS")) ↔
          pyLower name ∈ vessels.map pyLower)
        ∧ (∃ pre post, (validateVesselName vessels d).message = pre ++ name ++ post)) := by
  constructor
  · intro h
    unfold validateVesselName
    rcases h with h | h <;> rw [h] <;> rfl
  · intro name hname hne
    unfold validateVesselName
    rw [hname]
    have ht : optStrTruthy (some name) = true := by
      simp [optStrTruthy, hne]
    rw [ht]
    by_cases hm : pyLower name ∈ vessels.map pyLower
    · simp only [Bool.not_true, Bool.false_eq_true, if_false, Option.getD_some]
      rw [if_pos hm]
      exact ⟨by simp [hm], "Vessel '", "' is on the approved list.", by rw [String.append_assoc]⟩
    · simp only [Bool.not_true, Bool.false_eq_true, if_false, Option.getD_some]
      rw [if_neg hm]
      refine ⟨by simp [hm], "Vessel '", "' is not on the approved list.", by rw [String.append_assoc]⟩

/-- Witness for the amended C6 at a concrete case-insensitive match. -/
theorem C6_witness :
    (validateVesselName ["mv neptune"] ⟨none, some "MV Neptune", none, none, none⟩).status
      = "PASS" :=
  ((C6_vessel_name_match ["mv neptune"] ⟨none, some "MV Neptune", none, none, none⟩).2
    "MV Neptune" rfl (by decide)).1.mpr (by decide)

lemma parseDate_empty : parseDate "" = none := rfl

lemma parseDate_ne_empty {s : String} {sd : Date} (h : parseDate s = some sd) : s ≠ "" := by
  intro hc
  subst hc
  rw [parseDate_empty] at h
  exact Option.noConfusion h

lemma validateDateConsistency_parsed (d : ExtractedData) (s e : String) (sd ed : Date)
    (hs : d.policy_start_date = some s) (he : d.policy_end_date = some e)
    (hps : parseDate s = some sd) (hpe : parseDate e = some ed) :
    validateDateConsistency d =
      (if dateLt sd ed then
        ⟨"Date Consistency", "PASS", "Policy end date is after start date."⟩
      else
        ⟨"Date Consistency", "FAIL",
          "Policy end date (" ++ e ++ ") must be after start date (" ++ s ++ ")."⟩) := by
  have hsne : s ≠ "" := parseDate_ne_empty hps
  have hene : e ≠ "" := parseDate_ne_empty hpe
  unfold validateDateConsistency
  rw [hs, he]
  simp [optStrTruthy, hsne, hene, hps, hpe]

lemma validateDateConsistency_missing (d : ExtractedData)
    (h : d.policy_start_date = none ∨ d.policy_end_date = none) :
    validateDateConsistency d =
      ⟨"Date Consistency", "FAIL", "Missing start or end date."⟩ := by
  unfold validateDateConsistency
  rcases h with h | h
  · rw [h]
    rfl
  · rw [h]
    simp [optStrTruthy]

/-- C1: for dates that satisfy the model's format invariant (present
dates `strptime`, which holds of every pydantic-constructed
`ExtractedData`), the Date Consistency rule passes exactly when the end
date is strictly after the start date (equal dates fail, citing both
dates), and an absent date yields the fixed missing-date FAIL. -/
theorem C1_date_consistency (d : ExtractedData) :
    ((d.policy_start_date = none ∨ d.policy_end_date = none) →
      validateDateConsistency d =
        ⟨"Date Consistency", "FAIL", "Missing start or end date."⟩)
    ∧ (∀ s e sd ed, d.policy_start_date = some s → d.policy_end_date = some e →
        parseDate s = some sd → parseDate e = some ed →
        ((((validateDateConsistency d).status = "PASS")) ↔ dateLt sd ed = true)
        ∧ (dateLt sd ed = false →
            validateDateConsistency d = ⟨"Date Consistency", "FAIL",
              "Policy end date (" ++ e ++ ") must be after start date (" ++ s ++ ")."⟩)) := by
  constructor
  · exact validateDateConsistency_missing d
  · intro s e sd ed hs he hps hpe
    rw [validateDateConsistency_parsed d s e sd ed hs he hps hpe]
    constructor
    · by_cases hlt : dateLt sd ed
      · simp [hlt]
      · simp [hlt]
    · intro hlt
      simp [hlt]

/-- Witness for C1: a passing date pair and a missing start date. -/
theorem C1_witness :
    (validateDateConsistency ⟨none, none, some "2025-11-01", some "2026-10-31", none⟩).status
        = "PASS" ∧
    validateDateConsistency ⟨none, none, none, some "2026-10-31", none⟩
      = ⟨"Date Consistency", "FAIL", "Missing start or end date."⟩ :=
  ⟨((C1_date_consistency ⟨none, none, some "2025-11-01", some "2026-10-31", none⟩).2
      "2025-11-01" "2026-10-31" ⟨2025, 11, 1⟩ ⟨2026, 10, 31⟩ rfl rfl (by decide) (by decide)).1.mpr
    (by decide),
   (C1_date_consistency ⟨none, none, none, some "2026-10-31", none⟩).1 (Or.inl rfl)⟩

/-- C10: under the model invariant, when both dates are present both
`strptime` calls in the rule succeed, so the defensive
"Invalid date format" branch is unreachable: the result is fully
determined by the date comparison. -/
theorem C10_defensive_branch_unreachable (d : ExtractedData) (hwf : wf d = true)
    (s e : String) (hs : d.policy_start_date = some s) (he : d.policy_end_date = some e) :
    ∃ sd ed, parseDate s = some sd ∧ parseDate e = some ed ∧
      validateDateConsistency d =
        (if dateLt sd ed then
          ⟨"Date Consistency", "PASS", "Policy end date is after start date."⟩
        else
          ⟨"Date Consistency", "FAIL",
            "Policy end date (" ++ e ++ ") must be after start date (" ++ s ++ ")."⟩) := by
  unfold wf at hwf
  rw [Bool.and_eq_true] at hwf
  have h1 : (parseDate s).isSome := by
    have := hwf.1
    rw [hs] at this
    exact this
  have h2 : (parseDate e).isSome := by
    have := hwf.2
    rw [he] at this
    exact this
  obtain ⟨sd, hps⟩ := Option.isSome_iff_exists.mp h1
  obtain ⟨ed, hpe⟩ := Option.isSome_iff_exists.mp h2
  exact ⟨sd, ed, hps, hpe, validateDateConsistency_parsed d s e sd ed hs he hps hpe⟩

/-- Witness for C10 at a concrete well-formed instance. -/
theorem C10_witness :
    wf ⟨none, none, some "2025-11-01", some "2026-10-31", none⟩ = true ∧
    ∃ sd ed, parseDate "2025-11-01" = some sd ∧ parseDate "2026-10-31" = some ed ∧
      validateDateConsistency ⟨none, none, some "2025-11-01", some "2026-10-31", none⟩ =
        (if dateLt sd ed then
          ⟨"Date Consistency", "PASS", "Policy end date is after start date."⟩
        else
          ⟨"Date Consistency", "FAIL",
            "Policy end date (" ++ "2026-10-31" ++ ") must be after start date ("
              ++ "2025-11-01" ++ ")."⟩) :=
  ⟨by decide,
   C10_defensive_branch_unreachable ⟨none, none, some "2025-11-01", some "2026-10-31", none⟩
     (by decide) "2025-11-01" "2026-10-31" rfl rfl⟩


lemma validateDateConsistency_cases (d : ExtractedData) :
    validateDateConsistency d = ⟨"Date Consistency", "FAIL", "Missing start or end date."⟩ ∨
    validateDateConsistency d =
      ⟨"Date Consistency", "PASS", "Policy end date is after start date."⟩ ∨
    (∃ s, validateDateConsistency d = ⟨"Date Consistency", "FAIL",
        "Invalid date format: time data " ++ s ++ " does not match format"⟩) ∨
    (∃ s e, validateDateConsistency d = ⟨"Date Consistency", "FAIL",
        "Policy end date (" ++ e ++ ") must be after start date (" ++ s ++ ")."⟩) := by
  unfold validateDateConsistency
  split
  · exact Or.inl rfl
  · split
    · exact Or.inr (Or.inr (Or.inl ⟨_, rfl⟩))
    · exact Or.inr (Or.inr (Or.inl ⟨_, rfl⟩))
    · split
      · exact Or.inr (Or.inl rfl)
      · exact Or.inr (Or.inr (Or.inr ⟨_, _, rfl⟩))

lemma validateInsuredValue_cases (d : ExtractedData) :
    validateInsuredValue d = ⟨"Value Check", "FAIL", "Insured value is missing."⟩ ∨
    validateInsuredValue d = ⟨"Value Check", "PASS", "Insured value is valid."⟩ ∨
    (∃ v : Rat, validateInsuredValue d = ⟨"Value Check", "FAIL",
        "Insured value (" ++ toString v ++ ") must be greater than 0."⟩) := by
  unfold validateInsuredValue
  split
  · exact Or.inl rfl
  · split
    · exact Or.inr (Or.inl rfl)
    · exact Or.inr (Or.inr ⟨_, rfl⟩)

lemma validateVesselName_cases (vessels : List String) (d : ExtractedData) :
    validateVesselName vessels d =
      ⟨"Vessel Name Match", "FAIL", "Vessel name is missing."⟩ ∨
    (∃ n, validateVesselName vessels d = ⟨"Vessel Name Match", "PASS",
        "Vessel '" ++ n ++ "' is on the approved list."⟩) ∨
    (∃ n, validateVesselName vessels d = ⟨"Vessel Name Match", "FAIL",
        "Vessel '" ++ n ++ "' is not on the approved list."⟩) := by
  unfold validateVesselName
  split
  · exact Or.inl rfl
  · split
    · exact Or.inr (Or.inl ⟨_, rfl⟩)
    · exact Or.inr (Or.inr ⟨_, rfl⟩)

lemma validateCompleteness_cases (d : ExtractedData) :
    validateCompleteness d =
      ⟨"Completeness Check", "FAIL", "Policy number is missing or empty."⟩ ∨
    validateCompleteness d = ⟨"Completeness Check", "PASS", "Policy number is present."⟩ := by
  unfold validateCompleteness
  split
  · exact Or.inl rfl
  · split
    · exact Or.inr rfl
    · exact Or.inl rfl


lemma length_append_ne_zero_left (a b : String) (h : a.length ≠ 0) :
    (a ++ b).length ≠ 0 := by
  rw [String.length_append]
  omega

/-- C2: for every `ExtractedData` and approved vessel set, `validate`
is total (the embedding of every rule is a total function — each Python
rule catches its own exceptions) and returns exactly four results in
the fixed order Date Consistency, Value Check, Vessel Name Match,
Completeness Check, each with status `PASS` or `FAIL` and a non-empty
message; each list entry is produced by its own rule alone, so no
rule's failure affects the others. -/
theorem C2_validate_shape (vessels : List String) (d : ExtractedData) :
    (validate vessels d).map ValidationResult.rule =
      ["Date Consistency", "Value Check", "Vessel Name Match", "Completeness Check"]
    ∧ (validate vessels d).length = 4
    ∧ ∀ r ∈ validate vessels d,
        (r.status = "PASS" ∨ r.status = "FAIL") ∧ r.message ≠ "" := by
  have k1 : ((validateDateConsistency d).status = "PASS" ∨
        (validateDateConsistency d).status = "FAIL")
      ∧ (validateDateConsistency d).message ≠ ""
      ∧ (validateDateConsistency d).rule = "Date Consistency" := by
    rcases validateDateConsistency_cases d with h | h | ⟨s, h⟩ | ⟨s, e, h⟩ <;> rw [h] <;>
      refine ⟨by simp, ?_, rfl⟩
    · decide
    · decide
    · exact append_ne_empty_left _ _ (length_append_ne_zero_left _ _ (by decide))
    · exact append_ne_empty_left _ _ (length_append_ne_zero_left _ _
        (length_append_ne_zero_left _ _ (length_append_ne_zero_left _ _ (by decide))))
  have k2 : ((validateInsuredValue d).status = "PASS" ∨
        (validateInsuredValue d).status = "FAIL")
      ∧ (validateInsuredValue d).message ≠ ""
      ∧ (validateInsuredValue d).rule = "Value Check" := by
    rcases validateInsuredValue_cases d with h | h | ⟨v, h⟩ <;> rw [h] <;>
      refine ⟨by simp, ?_, rfl⟩
    · decide
    · decide
    · exact append_ne_empty_left _ _ (length_append_ne_zero_left _ _ (by decide))
  have k3 : ((validateVesselName vessels d).status = "PASS" ∨
        (validateVesselName vessels d).status = "FAIL")
      ∧ (validateVesselName vessels d).message ≠ ""
      ∧ (validateVesselName vessels d).rule = "Vessel Name Match" := by
    rcases validateVesselName_cases vessels d with h | ⟨n, h⟩ | ⟨n, h⟩ <;> rw [h] <;>
      refine ⟨by simp, ?_, rfl⟩
    · decide
    · exact append_ne_empty_left _ _ (length_append_ne_zero_left _ _ (by decide))
    · exact append_ne_empty_left _ _ (length_append_ne_zero_left _ _ (by decide))
  have k4 : ((validateCompleteness d).status = "PASS" ∨
        (validateCompleteness d).status = "FAIL")
      ∧ (validateCompleteness d).message ≠ ""
      ∧ (validateCompleteness d).rule = "Completeness Check" := by
    rcases validateCompleteness_cases d with h | h <;> rw [h] <;>
      exact ⟨by simp, by decide, rfl⟩
  refine ⟨?_, rfl, ?_⟩
  · simp [validate, k1.2.2, k2.2.2, k3.2.2, k4.2.2]
  · intro r hr
    simp only [validate, List.mem_cons, List.not_mem_nil, or_false] at hr
    rcases hr with h | h | h | h <;> subst h
    · exact ⟨k1.1, k1.2.1⟩
    · exact ⟨k2.1, k2.2.1⟩
    · exact ⟨k3.1, k3.2.1⟩
    · exact ⟨k4.1, k4.2.1⟩


lemma checkStrField_jstr_ok {s : String} {r : Option String}
    (h : checkStrField (JsonVal.jstr s) = Except.ok r) : r = some s := by
  simp only [checkStrField, Except.ok.injEq] at h
  exact h.symm

lemma checkDateField_jstr_ok {s : String} {r : Option String}
    (h : checkDateField (JsonVal.jstr s) = Except.ok r) : r = some s := by
  by_cases hp : (parseDate s).isSome
  · simp only [checkDateField, hp, if_true, Except.ok.injEq] at h
    exact h.symm
  · simp [checkDateField, hp] at h

lemma checkFloatField_jnum_ok {q : Rat} {r : Option Rat}
    (h : checkFloatField (JsonVal.jnum q) = Except.ok r) : r = some q := by
  simp only [checkFloatField, Except.ok.injEq] at h
  exact h.symm

lemma wfDateField_of_check (v : JsonVal) (r : Option String)
    (h : checkDateField v = Except.ok r) : wfDateField r = true := by
  cases v with
  | jnull =>
    simp only [checkDateField, Except.ok.injEq] at h
    subst h
    rfl
  | jstr s =>
    have hr := checkDateField_jstr_ok h
    subst hr
    by_cases hp : (parseDate s).isSome
    · simpa [wfDateField] using hp
    · simp [checkDateField, hp] at h
  | jnum q => simp [checkDateField] at h

lemma checkDateField_jstr_error {s : String} (h : parseDate s = none) :
    checkDateField (JsonVal.jstr s) =
      Except.error ("Date must be in YYYY-MM-DD format, got: " ++ s) := by
  simp [checkDateField, h]

lemma checkFloatField_jstr_error {s : String} (h : pyFloat s = none) :
    checkFloatField (JsonVal.jstr s) =
      Except.error "Input should be a valid number, unable to parse string as a number" := by
  simp [checkFloatField, h]

lemma checkStrField_roundtrip (r : Option String) :
    checkStrField (jsonOfOptStr r) = Except.ok r := by
  cases r <;> rfl

lemma checkFloatField_roundtrip (r : Option Rat) :
    checkFloatField (jsonOfOptRat r) = Except.ok r := by
  cases r <;> rfl

lemma checkDateField_roundtrip (r : Option String) (hw : wfDateField r = true) :
    checkDateField (jsonOfOptStr r) = Except.ok r := by
  cases r with
  | none => rfl
  | some s =>
    have hp : (parseDate s).isSome = true := hw
    simp [checkDateField, jsonOfOptStr, hp]

lemma mkExtractedData_ok_iff (raw : RawObj) (d : ExtractedData) :
    mkExtractedData raw = Except.ok d ↔
      (checkStrField raw.policy_number = Except.ok d.policy_number ∧
       checkStrField raw.vessel_name = Except.ok d.vessel_name ∧
       checkDateField raw.policy_start_date = Except.ok d.policy_start_date ∧
       checkDateField raw.policy_end_date = Except.ok d.policy_end_date ∧
       checkFloatField raw.insured_value = Except.ok d.insured_value) := by
  constructor
  · intro h
    unfold mkExtractedData at h
    cases h1 : checkStrField raw.policy_number with
    | error e1 => rw [h1] at h; exact Except.noConfusion h
    | ok pn =>
      rw [h1] at h
      cases h2 : checkStrField raw.vessel_name with
      | error e2 => rw [h2] at h; exact Except.noConfusion h
      | ok vn =>
        rw [h2] at h
        cases h3 : checkDateField raw.policy_start_date with
        | error e3 => rw [h3] at h; exact Except.noConfusion h
        | ok sd =>
          rw [h3] at h
          cases h4 : checkDateField raw.policy_end_date with
          | error e4 => rw [h4] at h; exact Except.noConfusion h
          | ok ed =>
            rw [h4] at h
            cases h5 : checkFloatField raw.insured_value with
            | error e5 => rw [h5] at h; exact Except.noConfusion h
            | ok iv =>
              rw [h5] at h
              injection h with hd
              subst hd
              exact ⟨rfl, rfl, rfl, rfl, rfl⟩
  · rintro ⟨h1, h2, h3, h4, h5⟩
    unfold mkExtractedData
    rw [h1, h2, h3, h4, h5]

lemma mkExtractedData_error_cases (raw : RawObj)
    (h : (∃ e, checkStrField raw.policy_number = Except.error e) ∨
         (∃ e, checkStrField raw.vessel_name = Except.error e) ∨
         (∃ e, checkDateField raw.policy_start_date = Except.error e) ∨
         (∃ e, checkDateField raw.policy_end_date = Except.error e) ∨
         (∃ e, checkFloatField raw.insured_value = Except.error e)) :
    ∃ e, mkExtractedData raw = Except.error e := by
  unfold mkExtractedData
  cases h1 : checkStrField raw.policy_number with
  | error e1 => exact ⟨e1, rfl⟩
  | ok pn =>
    cases h2 : checkStrField raw.vessel_name with
    | error e2 => exact ⟨e2, rfl⟩
    | ok vn =>
      cases h3 : checkDateField raw.policy_start_date with
      | error e3 => exact ⟨e3, rfl⟩
      | ok sd =>
        cases h4 : checkDateField raw.policy_end_date with
        | error e4 => exact ⟨e4, rfl⟩
        | ok ed =>
          cases h5 : checkFloatField raw.insured_value with
          | error e5 => exact ⟨e5, rfl⟩
          | ok iv =>
            exfalso
            rcases h with ⟨e, he⟩ | ⟨e, he⟩ | ⟨e, he⟩ | ⟨e, he⟩ | ⟨e, he⟩
            · rw [h1] at he; exact Except.noConfusion he
            · rw [h2] at he; exact Except.noConfusion he
            · rw [h3] at he; exact Except.noConfusion he
            · rw [h4] at he; exact Except.noConfusion he
            · rw [h5] at he; exact Except.noConfusion he

/-- C4: every `ExtractedData` produced by pydantic construction from a
parsed JSON object satisfies the field invariants: present dates parse
as `YYYY-MM-DD` (`wf`) and `insured_value`, when present, is a number —
and every present well-typed field is carried over unchanged, never
dropped or defaulted to `null`. A present-but-malformed field rejects
the whole construction as a hard error: a date string that fails
`strptime`, or a non-numeric `insured_value` string (the
`isFloatSpecial` guard keeps IEEE `nan`/`inf` spellings, which no
rational can carry, outside the statement's scope). -/
theorem C4_model_invariants (raw : RawObj) (d : ExtractedData) :
    (mkExtractedData raw = Except.ok d →
      wf d = true
      ∧ (∀ s, raw.policy_number = JsonVal.jstr s → d.policy_number = some s)
      ∧ (∀ s, raw.vessel_name = JsonVal.jstr s → d.vessel_name = some s)
      ∧ (∀ s, raw.policy_start_date = JsonVal.jstr s → d.policy_start_date = some s)
      ∧ (∀ s, raw.policy_end_date = JsonVal.jstr s → d.policy_end_date = some s)
      ∧ (∀ q, raw.insured_value = JsonVal.jnum q → d.insured_value = some q))
    ∧ (∀ s, (raw.policy_start_date = JsonVal.jstr s ∨ raw.policy_end_date = JsonVal.jstr s) →
        parseDate s = none → ∃ e, mkExtractedData raw = Except.error e)
    ∧ (∀ s, raw.insured_value = JsonVal.jstr s → pyFloat s = none →
        isFloatSpecial s = false → ∃ e, mkExtractedData raw = Except.error e) := by
  refine ⟨?_, ?_, ?_⟩
  · intro h
    obtain ⟨h1, h2, h3, h4, h5⟩ := (mkExtractedData_ok_iff raw d).mp h
    refine ⟨?_, ?_, ?_, ?_, ?_, ?_⟩
    · unfold wf
      rw [wfDateField_of_check _ _ h3, wfDateField_of_check _ _ h4]
      rfl
    · intro s hs
      rw [hs] at h1
      exact checkStrField_jstr_ok h1
    · intro s hs
      rw [hs] at h2
      exact checkStrField_jstr_ok h2
    · intro s hs
      rw [hs] at h3
      exact checkDateField_jstr_ok h3
    · intro s hs
      rw [hs] at h4
      exact checkDateField_jstr_ok h4
    · intro q hq
      rw [hq] at h5
      exact checkFloatField_jnum_ok h5
  · intro s hmem hp
    apply mkExtractedData_error_cases
    rcases hmem with h | h
    · exact Or.inr (Or.inr (Or.inl ⟨_, by rw [h]; exact checkDateField_jstr_error hp⟩))
    · exact Or.inr (Or.inr (Or.inr (Or.inl ⟨_, by rw [h]; exact checkDateField_jstr_error hp⟩)))
  · intro s hs hp _
    apply mkExtractedData_error_cases
    exact Or.inr (Or.inr (Or.inr (Or.inr ⟨_, by rw [hs]; exact checkFloatField_jstr_error hp⟩)))

/-- Witness for C4: a valid construction is well-formed; a malformed
date and a non-numeric insured_value string each reject the whole
object. -/
theorem C4_witness :
    wf ⟨some "P1", none, some "2025-11-01", none, some 5⟩ = true ∧
    (∃ e, mkExtractedData
        ⟨JsonVal.jnull, JsonVal.jnull, JsonVal.jstr "not-a-date", JsonVal.jnull, JsonVal.jnull⟩
      = Except.error e) ∧
    (∃ e, mkExtractedData
        ⟨JsonVal.jnull, JsonVal.jnull, JsonVal.jnull, JsonVal.jnull, JsonVal.jstr "abc"⟩
      = Except.error e) :=
  ⟨((C4_model_invariants
      ⟨JsonVal.jstr "P1", JsonVal.jnull, JsonVal.jstr "2025-11-01", JsonVal.jnull,
        JsonVal.jnum 5⟩
      ⟨some "P1", none, some "2025-11-01", none, some 5⟩).1 rfl).1,
   (C4_model_invariants
      ⟨JsonVal.jnull, JsonVal.jnull, JsonVal.jstr "not-a-date", JsonVal.jnull, JsonVal.jnull⟩
      ⟨none, none, none, none, none⟩).2.1 "not-a-date" (Or.inl rfl) (by decide),
   (C4_model_invariants
      ⟨JsonVal.jnull, JsonVal.jnull, JsonVal.jnull, JsonVal.jnull, JsonVal.jstr "abc"⟩
      ⟨none, none, none, none, none⟩).2.2 "abc" rfl (by decide) (by decide)⟩

/-- C9: an `ExtractedData` constructed from a valid JSON object,
serialized back to its JSON object and reparsed, is field-for-field
identical to the original. -/
theorem C9_round_trip (raw : RawObj) (d : ExtractedData)
    (h : mkExtractedData raw = Except.ok d) :
    mkExtractedData (toRawObj d) = Except.ok d := by
  obtain ⟨h1, h2, h3, h4, h5⟩ := (mkExtractedData_ok_iff raw d).mp h
  refine (mkExtractedData_ok_iff (toRawObj d) d).mpr ⟨?_, ?_, ?_, ?_, ?_⟩
  · exact checkStrField_roundtrip _
  · exact checkStrField_roundtrip _
  · exact checkDateField_roundtrip _ (wfDateField_of_check _ _ h3)
  · exact checkDateField_roundtrip _ (wfDateField_of_check _ _ h4)
  · exact checkFloatField_roundtrip _

/-- Witness for C9 at a concrete fully-populated instance. -/
theorem C9_witness :
    mkExtractedData (toRawObj ⟨some "P1", some "V", some "2025-11-01", some "2026-10-31", some 5⟩)
      = Except.ok ⟨some "P1", some "V", some "2025-11-01", some "2026-10-31", some 5⟩ :=
  C9_round_trip
    ⟨JsonVal.jstr "P1", JsonVal.jstr "V", JsonVal.jstr "2025-11-01",
      JsonVal.jstr "2026-10-31", JsonVal.jnum 5⟩ _ rfl

/-- C3: for non-empty input text, whenever the extractor fails (empty
AI response, unparseable JSON, or field-validation failure) the
pipeline returns exactly that error — no validation results exist in
that outcome, so the rule validator's output is never produced — and on
extractor success the caller gets the complete
`{extracted_data, validation_results}` structure; there is no third,
partial outcome. -/
theorem C3_pipeline_error_propagation (text : String) (resp : AIResult) (vessels : List String)
    (htext : pyStrip text ≠ "") :
    (∀ e, extractFields resp = Except.error e →
        validateDocument text resp vessels = Except.error e)
    ∧ (∀ d, extractFields resp = Except.ok d →
        validateDocument text resp vessels = Except.ok ⟨d, validate vessels d⟩) := by
  have h1 : text ≠ "" := by
    intro hc
    subst hc
    exact htext rfl
  unfold validateDocument
  have hcond : (text == "" || pyStrip text == "") = false := by
    simp [h1, htext]
  rw [hcond]
  simp only [Bool.false_eq_true, if_false]
  constructor
  · intro e he
    rw [he]
  · intro d hd
    rw [hd]

/-- Witness for C3: an empty AI response surfaces its error through the
pipeline. -/
theorem C3_witness :
    extractFields AIResult.empty = Except.error "Empty response received from Gemini AI" ∧
    validateDocument "Marine policy text" AIResult.empty ["MV Neptune"]
      = Except.error "Empty response received from Gemini AI" :=
  ⟨rfl,
   (C3_pipeline_error_propagation "Marine policy text" AIResult.empty ["MV Neptune"]
      (by decide)).1 "Empty response received from Gemini AI" rfl⟩

/-- C5: whitespace-only (or empty) input text is rejected with the
input error, uniformly in the AI response — the result does not depend
on the extractor at all, which is the functional rendering of "the
extractor is never invoked". -/
theorem C5_empty_input_rejected (text : String) (resp : AIResult) (vessels : List String)
    (h : pyStrip text = "") :
    validateDocument text resp vessels = Except.error "Document text cannot be empty" := by
  unfold validateDocument
  simp [h]

/-- Witness for C5 at a whitespace-only input. -/
theorem C5_witness :
    pyStrip "   " = "" ∧
    validateDocument "   "
        (AIResult.parsed ⟨JsonVal.jnull, JsonVal.jnull, JsonVal.jnull, JsonVal.jnull, JsonVal.jnull⟩)
        ["MV Neptune"]
      = Except.error "Document text cannot be empty" :=
  ⟨by decide,
   C5_empty_input_rejected "   "
     (AIResult.parsed ⟨JsonVal.jnull, JsonVal.jnull, JsonVal.jnull, JsonVal.jnull, JsonVal.jnull⟩)
     ["MV Neptune"] (by decide)⟩

end DocValidator
